import Mathlib

/-!
Verification of the `neat` module of rust-spice (`src/core/neat.rs`), a thin
ergonomics layer over the auto-generated CSPICE bindings in `crate::raw`.
Each public function of the module is embedded as a Lean function
parameterised by the behavior of the raw layer, together with the exact
sequence of raw calls an invocation makes.
-/

/-- Bit-pattern representation of a Rust `f64` value. The adapters perform no
floating-point arithmetic: every `f64` argument is forwarded untouched, so
modelling it as its 64-bit pattern is exact (bit-for-bit). -/
structure F64 where
  bits : Nat
  deriving DecidableEq

/-- Modelled from the spec: the DLA segment descriptor type `raw::DLADSC` of the
raw binding layer, which is not under src/. The spec's data model is transient
tuples of primitive numeric values; the descriptor is a record of machine
integers that the adapters pass through untouched, so its exact field layout is
irrelevant to every claim. -/
structure DLADSC where
  bwdptr : Int
  fwdptr : Int
  ibase : Int
  isize : Int
  dbase : Int
  dsize : Int
  deriving DecidableEq

/-- Modelled from the spec: the crate-level constant `crate::MAX_LEN_OUT` (the
"default length" from which output strings are allocated), defined outside
src/. The claims refer to it only symbolically; its numeric value does not
affect any of them. -/
def MAX_LEN_OUT : Nat := 256

/-- Value of the expression `MAX_LEN_OUT as i32` appearing in the adapter
bodies. The constant is far below 2^31, so the `usize`-to-`i32` cast is
value-preserving. -/
def MAX_LEN_OUT_I32 : Int := (MAX_LEN_OUT : Int)

/-- Semantics of Rust's unannotated `as` cast from `i32` to `usize` on a 64-bit
target: sign-extend to 64 bits and reinterpret the pattern as unsigned, which
on the mathematical value is reduction modulo 2^64. -/
def i32AsUsize (n : Int) : Nat := (n % (2 : Int) ^ 64).toNat

/-- Modelled from the spec: the behavior of the raw binding layer
(`crate::raw`), which is not under src/. Each field gives the input/output
behavior of one raw function used by the module. The spec fixes nothing about
this behavior ("testable behavior is bit-for-bit delegation to the underlying
library"), so the environment is kept fully abstract and every theorem
quantifies over it. Rust types are mapped as: `i32` to `Int`, `f64` to `F64`
bit patterns, `&str`/`String` to `String`, `usize` to `Nat`,
`Vec<[i32; 3]>` to `List (Int × Int × Int)`, and
`Vec<[f64; 3]>` to `List (F64 × F64 × F64)`. -/
structure Raw where
  bodc2n : Int → Int → String × Bool
  et2lst : F64 → Int → F64 → String → Int → Int → Int × Int × Int × String × String
  timout : F64 → String → Nat → String
  dskz02 : Int → DLADSC → Int × Int
  dskp02 : Int → DLADSC → Int → Nat → List (Int × Int × Int)
  dskv02 : Int → DLADSC → Int → Nat → List (F64 × F64 × F64)
  kdata : Int → String → Int → Int → Int → String × String × String × Int × Bool

/-- One invocation of a raw function, recording the function called and every
argument passed to it. -/
inductive RawCall
  | bodc2n (code : Int) (lenout : Int)
  | et2lst (et : F64) (body_code : Int) (lon : F64) (lon_type : String)
      (timlen : Int) (ampmlen : Int)
  | timout (et : F64) (pictur : String) (lenout : Nat)
  | dskz02 (handle : Int) (dladsc : DLADSC)
  | dskp02 (handle : Int) (dladsc : DLADSC) (start : Int) (room : Nat)
  | dskv02 (handle : Int) (dladsc : DLADSC) (start : Int) (room : Nat)
  | kdata (which : Int) (kind : String) (fillen : Int) (typlen : Int) (srclen : Int)
  deriving DecidableEq

/-- Translation of `neat::bodc2n`: body is
`raw::bodc2n(code, MAX_LEN_OUT as i32)`. -/
def bodc2n (r : Raw) (code : Int) : String × Bool :=
  r.bodc2n code MAX_LEN_OUT_I32

/-- Translation of `neat::et2lst`: body is
`raw::et2lst(et, body_code, lon, lon_type, MAX_LEN_OUT as i32, MAX_LEN_OUT as i32)`. -/
def et2lst (r : Raw) (et : F64) (body_code : Int) (lon : F64) (lon_type : String) :
    Int × Int × Int × String × String :=
  r.et2lst et body_code lon lon_type MAX_LEN_OUT_I32 MAX_LEN_OUT_I32

/-- Translation of `neat::timout`: body is `raw::timout(et, pictur, pictur.len())`.
Rust's `str::len` is the UTF-8 byte length, hence `String.utf8ByteSize`. -/
def timout (r : Raw) (et : F64) (pictur : String) : String :=
  r.timout et pictur pictur.utf8ByteSize

/-- Translation of `neat::dskp02`: body is
`let (_nv, np) = raw::dskz02(handle, dladsc); raw::dskp02(handle, dladsc, 1, np as _)`,
with the cast target (the raw fetch-count parameter, a `usize`) modelled from
the spec since the raw layer is not under src/. -/
def dskp02 (r : Raw) (handle : Int) (dladsc : DLADSC) : List (Int × Int × Int) :=
  let np := (r.dskz02 handle dladsc).2
  r.dskp02 handle dladsc 1 (i32AsUsize np)

/-- Translation of `neat::dskv02`: body is
`let (nv, _np) = raw::dskz02(handle, dladsc); raw::dskv02(handle, dladsc, 1, nv as _)`,
with the cast target modelled as for `dskp02`. -/
def dskv02 (r : Raw) (handle : Int) (dladsc : DLADSC) : List (F64 × F64 × F64) :=
  let nv := (r.dskz02 handle dladsc).1
  r.dskv02 handle dladsc 1 (i32AsUsize nv)

/-- Translation of `neat::kdata`: body is
`raw::kdata(which, kind, MAX_LEN_OUT as i32, MAX_LEN_OUT as i32, MAX_LEN_OUT as i32)`. -/
def kdata (r : Raw) (which : Int) (kind : String) :
    String × String × String × Int × Bool :=
  r.kdata which kind MAX_LEN_OUT_I32 MAX_LEN_OUT_I32 MAX_LEN_OUT_I32

/-- Sequence of raw calls one invocation of `neat::bodc2n` makes, read off its
body: a single call to `raw::bodc2n`. -/
def bodc2nCalls (code : Int) : List RawCall :=
  [RawCall.bodc2n code MAX_LEN_OUT_I32]

/-- Sequence of raw calls one invocation of `neat::et2lst` makes: a single call
to `raw::et2lst`. -/
def et2lstCalls (et : F64) (body_code : Int) (lon : F64) (lon_type : String) :
    List RawCall :=
  [RawCall.et2lst et body_code lon lon_type MAX_LEN_OUT_I32 MAX_LEN_OUT_I32]

/-- Sequence of raw calls one invocation of `neat::timout` makes: a single call
to `raw::timout`. -/
def timoutCalls (et : F64) (pictur : String) : List RawCall :=
  [RawCall.timout et pictur pictur.utf8ByteSize]

/-- Sequence of raw calls one invocation of `neat::dskp02` makes, read off its
body: first `raw::dskz02` (for the plate count), then `raw::dskp02`. -/
def dskp02Calls (r : Raw) (handle : Int) (dladsc : DLADSC) : List RawCall :=
  let np := (r.dskz02 handle dladsc).2
  [RawCall.dskz02 handle dladsc, RawCall.dskp02 handle dladsc 1 (i32AsUsize np)]

/-- Sequence of raw calls one invocation of `neat::dskv02` makes: first
`raw::dskz02` (for the vertex count), then `raw::dskv02`. -/
def dskv02Calls (r : Raw) (handle : Int) (dladsc : DLADSC) : List RawCall :=
  let nv := (r.dskz02 handle dladsc).1
  [RawCall.dskz02 handle dladsc, RawCall.dskv02 handle dladsc 1 (i32AsUsize nv)]

/-- Sequence of raw calls one invocation of `neat::kdata` makes: a single call
to `raw::kdata`. -/
def kdataCalls (which : Int) (kind : String) : List RawCall :=
  [RawCall.kdata which kind MAX_LEN_OUT_I32 MAX_LEN_OUT_I32 MAX_LEN_OUT_I32]

/-- Spec-side definition for `bodc2n` (claim C1), written from the spec's
words: delegate to the raw function with the caller's arguments unchanged and
the fixed default length `MAX_LEN_OUT` supplied for every output-string length
parameter. -/
def bodc2nSpecSide (r : Raw) (code : Int) : String × Bool :=
  r.bodc2n code MAX_LEN_OUT_I32

/-- Spec-side definition for `et2lst` (claim C1): delegate with the caller's
arguments and the fixed default length for both output-string length
parameters. -/
def et2lstSpecSide (r : Raw) (et : F64) (body_code : Int) (lon : F64)
    (lon_type : String) : Int × Int × Int × String × String :=
  r.et2lst et body_code lon lon_type MAX_LEN_OUT_I32 MAX_LEN_OUT_I32

/-- Spec-side definition for `kdata` (claim C1): delegate with the caller's
arguments and the fixed default length for all three output-string length
parameters. -/
def kdataSpecSide (r : Raw) (which : Int) (kind : String) :
    String × String × String × Int × Bool :=
  r.kdata which kind MAX_LEN_OUT_I32 MAX_LEN_OUT_I32 MAX_LEN_OUT_I32

/-- Enumeration of the module's public functions, read off the source: exactly
the six `pub fn` items of neat.rs. -/
inductive NeatFn
  | bodc2n
  | et2lst
  | timout
  | dskp02
  | dskv02
  | kdata
  deriving DecidableEq

/-- Names of the raw functions the module uses. -/
inductive RawFnName
  | bodc2n
  | et2lst
  | timout
  | dskz02
  | dskp02
  | dskv02
  | kdata
  deriving DecidableEq

/-- The module's public surface as a list. -/
def neatPublicSurface : List NeatFn :=
  [.bodc2n, .et2lst, .timout, .dskp02, .dskv02, .kdata]

/-- The named raw function each public function adapts, read off the source
(each adapter's namesake, per the doc comments: see `raw::X` for the raw
interface). -/
def adaptsTo : NeatFn → RawFnName
  | .bodc2n => .bodc2n
  | .et2lst => .et2lst
  | .timout => .timout
  | .dskp02 => .dskp02
  | .dskv02 => .dskv02
  | .kdata => .kdata

/-- The raw function a recorded call invokes. -/
def callName : RawCall → RawFnName
  | .bodc2n .. => .bodc2n
  | .et2lst .. => .et2lst
  | .timout .. => .timout
  | .dskz02 .. => .dskz02
  | .dskp02 .. => .dskp02
  | .dskv02 .. => .dskv02
  | .kdata .. => .kdata

/-- Property that the raw layer honors the output-string length arguments of
`bodc2n`, `et2lst` and `kdata`: no returned string is longer than the
corresponding requested capacity. -/
def honorsLengths (r : Raw) : Prop :=
  (∀ code len, (r.bodc2n code len).1.utf8ByteSize ≤ len.toNat) ∧
  (∀ et b lon lt tlen alen,
      (r.et2lst et b lon lt tlen alen).2.2.2.1.utf8ByteSize ≤ tlen.toNat ∧
      (r.et2lst et b lon lt tlen alen).2.2.2.2.utf8ByteSize ≤ alen.toNat) ∧
  (∀ which kind fl tl sl,
      (r.kdata which kind fl tl sl).1.utf8ByteSize ≤ fl.toNat ∧
      (r.kdata which kind fl tl sl).2.1.utf8ByteSize ≤ tl.toNat ∧
      (r.kdata which kind fl tl sl).2.2.1.utf8ByteSize ≤ sl.toNat)

/-- Property that the raw layer honors the output length argument of `timout`:
the returned string is no longer than the requested capacity. -/
def timoutHonorsLength (r : Raw) : Prop :=
  ∀ et pictur len, (r.timout et pictur len).utf8ByteSize ≤ len

/-- Concrete zero descriptor, used to evaluate the definitions at a point. -/
def dl0 : DLADSC := ⟨0, 0, 0, 0, 0, 0⟩

/-- Concrete zero f64 bit pattern, used to evaluate the definitions at a point. -/
def f0 : F64 := ⟨0⟩

/-- Concrete raw environment used as a witness point: every function returns
empty strings, zeros and empty lists. -/
def rawEx : Raw where
  bodc2n := fun _ _ => ("", true)
  et2lst := fun _ _ _ _ _ _ => (0, 0, 0, "", "")
  timout := fun _ _ _ => ""
  dskz02 := fun _ _ => (0, 0)
  dskp02 := fun _ _ _ _ => []
  dskv02 := fun _ _ _ _ => []
  kdata := fun _ _ _ _ _ => ("", "", "", 0, false)

theorem i32AsUsize_of_small_nonneg (n : Int) (h0 : 0 ≤ n) (h1 : n < 2 ^ 31) :
    i32AsUsize n = n.toNat := by
  unfold i32AsUsize
  rw [Int.emod_eq_of_lt h0 (lt_of_lt_of_le h1 (by norm_num))]

theorem rawEx_honors : honorsLengths rawEx := by
  refine ⟨fun code len => ?_, fun et b lon lt tlen alen => ⟨?_, ?_⟩,
    fun which kind fl tl sl => ⟨?_, ?_, ?_⟩⟩ <;>
    exact Nat.zero_le _

theorem rawEx_timout_honors : timoutHonorsLength rawEx :=
  fun _ _ len => Nat.zero_le len

/-- C1: for every input, each of the adapters `bodc2n`, `et2lst` and `kdata`
returns exactly the value of the corresponding raw function called with the
caller's arguments and the fixed default length `MAX_LEN_OUT` for every
output-string length parameter (here stated as equality with the spec-side
definitions written from the spec's words). -/
theorem claim1_fixed_default_length_delegation (r : Raw) (code : Int) (et : F64)
    (b : Int) (lon : F64) (lt : String) (which : Int) (kind : String) :
    bodc2n r code = bodc2nSpecSide r code ∧
    et2lst r et b lon lt = et2lstSpecSide r et b lon lt ∧
    kdata r which kind = kdataSpecSide r which kind :=
  ⟨rfl, rfl, rfl⟩

/-- C2 counterexample: the claim says every adapter invokes exactly one raw
function per call, but `dskp02` at a concrete input makes two raw calls
(`raw::dskz02` then `raw::dskp02`), so its call count is not one. -/
theorem claim2_counterexample_dskp02_two_raw_calls :
    (dskp02Calls rawEx 0 dl0).length = 2 ∧ (dskp02Calls rawEx 0 dl0).length ≠ 1 := by
  decide

/-- C2 amended: each adapter makes a fixed sequence of raw calls with adjusted
arguments; `bodc2n`, `et2lst`, `timout` and `kdata` call exactly one raw
function per invocation, while `dskp02` and `dskv02` each call exactly two
(`raw::dskz02` to obtain the count, then the namesake fetch). -/
theorem claim2_amended_raw_call_counts :
    (∀ code : Int, (bodc2nCalls code).length = 1) ∧
    (∀ (et : F64) (b : Int) (lon : F64) (lt : String),
        (et2lstCalls et b lon lt).length = 1) ∧
    (∀ (et : F64) (p : String), (timoutCalls et p).length = 1) ∧
    (∀ (w : Int) (k : String), (kdataCalls w k).length = 1) ∧
    (∀ (r : Raw) (h : Int) (d : DLADSC), (dskp02Calls r h d).length = 2) ∧
    (∀ (r : Raw) (h : Int) (d : DLADSC), (dskv02Calls r h d).length = 2) :=
  ⟨fun _ => rfl, fun _ _ _ _ => rfl, fun _ _ => rfl, fun _ _ => rfl,
    fun _ _ _ => rfl, fun _ _ _ => rfl⟩

/-- C3: for every `et` and `pictur`, `timout` returns exactly
`raw::timout(et, pictur, pictur.len())`, the supplied output length being the
byte length of the caller's format picture, not a fixed default. -/
theorem claim3_timout_picture_length_delegation (r : Raw) (et : F64) (pictur : String) :
    timout r et pictur = r.timout et pictur pictur.utf8ByteSize ∧
    timoutCalls et pictur = [RawCall.timout et pictur pictur.utf8ByteSize] :=
  ⟨rfl, rfl⟩

/-- C4: `dskp02` obtains the plate count `np` from `raw::dskz02(handle, dladsc)`
and returns `raw::dskp02(handle, dladsc, 1, np)`, and `dskv02` symmetrically
obtains the vertex count `nv` and returns `raw::dskv02(handle, dladsc, 1, nv)`;
for counts in the `i32` range reported nonnegative, the room argument equals
the count itself. -/
theorem claim4_dsk_adapters_fetch_full_range (r : Raw) (handle : Int) (d : DLADSC)
    (hnp0 : 0 ≤ (r.dskz02 handle d).2) (hnp1 : (r.dskz02 handle d).2 < 2 ^ 31)
    (hnv0 : 0 ≤ (r.dskz02 handle d).1) (hnv1 : (r.dskz02 handle d).1 < 2 ^ 31) :
    dskp02 r handle d = r.dskp02 handle d 1 (r.dskz02 handle d).2.toNat ∧
    dskv02 r handle d = r.dskv02 handle d 1 (r.dskz02 handle d).1.toNat ∧
    dskp02Calls r handle d =
      [RawCall.dskz02 handle d,
        RawCall.dskp02 handle d 1 (r.dskz02 handle d).2.toNat] ∧
    dskv02Calls r handle d =
      [RawCall.dskz02 handle d,
        RawCall.dskv02 handle d 1 (r.dskz02 handle d).1.toNat] := by
  refine ⟨?_, ?_, ?_, ?_⟩
  · show r.dskp02 handle d 1 (i32AsUsize (r.dskz02 handle d).2) = _
    rw [i32AsUsize_of_small_nonneg _ hnp0 hnp1]
  · show r.dskv02 handle d 1 (i32AsUsize (r.dskz02 handle d).1) = _
    rw [i32AsUsize_of_small_nonneg _ hnv0 hnv1]
  · show [RawCall.dskz02 handle d,
        RawCall.dskp02 handle d 1 (i32AsUsize (r.dskz02 handle d).2)] = _
    rw [i32AsUsize_of_small_nonneg _ hnp0 hnp1]
  · show [RawCall.dskz02 handle d,
        RawCall.dskv02 handle d 1 (i32AsUsize (r.dskz02 handle d).1)] = _
    rw [i32AsUsize_of_small_nonneg _ hnv0 hnv1]

/-- C4 witness: the theorem applied at the concrete point `rawEx`, handle 0,
zero descriptor, where both counts are 0. -/
theorem claim4_witness :
    0 ≤ (rawEx.dskz02 0 dl0).2 ∧
    dskp02 rawEx 0 dl0 = rawEx.dskp02 0 dl0 1 (rawEx.dskz02 0 dl0).2.toNat :=
  ⟨by decide,
    (claim4_dsk_adapters_fetch_full_range rawEx 0 dl0 (by decide) (by decide)
      (by decide) (by decide)).1⟩

/-- C5: no adapter validates, guards or transforms a caller-supplied input or a
raw result: each adapter's return value is exactly the raw call's return value
with the caller's arguments forwarded unchanged (lengths added), so the
error/failure outcome seen by the caller — the `found` flag of `bodc2n` and of
`kdata` included — is exactly the raw layer's. -/
theorem claim5_no_validation_pass_through (r : Raw) (code : Int) (et : F64)
    (b : Int) (lon : F64) (lt : String) (et2 : F64) (pictur : String)
    (handle : Int) (d : DLADSC) (which : Int) (kind : String) :
    bodc2n r code = r.bodc2n code MAX_LEN_OUT_I32 ∧
    (bodc2n r code).2 = (r.bodc2n code MAX_LEN_OUT_I32).2 ∧
    et2lst r et b lon lt = r.et2lst et b lon lt MAX_LEN_OUT_I32 MAX_LEN_OUT_I32 ∧
    timout r et2 pictur = r.timout et2 pictur pictur.utf8ByteSize ∧
    dskp02 r handle d =
      r.dskp02 handle d 1 (i32AsUsize (r.dskz02 handle d).2) ∧
    dskv02 r handle d =
      r.dskv02 handle d 1 (i32AsUsize (r.dskz02 handle d).1) ∧
    kdata r which kind =
      r.kdata which kind MAX_LEN_OUT_I32 MAX_LEN_OUT_I32 MAX_LEN_OUT_I32 ∧
    (kdata r which kind).2.2.2.2 =
      (r.kdata which kind MAX_LEN_OUT_I32 MAX_LEN_OUT_I32 MAX_LEN_OUT_I32).2.2.2.2 :=
  ⟨rfl, rfl, rfl, rfl, rfl, rfl, rfl, rfl⟩

/-- C6: every adapter is a stateless call-through: for a fixed behavior of the
raw layer, two invocations of the same adapter with equal arguments return
equal results. -/
theorem claim6_two_run_determinism (r : Raw) (code code' : Int) (hc : code = code')
    (et et' : F64) (he : et = et') (b b' : Int) (hb : b = b')
    (lon lon' : F64) (hl : lon = lon') (lt lt' : String) (hlt : lt = lt')
    (p p' : String) (hp : p = p') (handle handle' : Int) (hh : handle = handle')
    (d d' : DLADSC) (hd : d = d') (w w' : Int) (hw : w = w')
    (k k' : String) (hk : k = k') :
    bodc2n r code = bodc2n r code' ∧
    et2lst r et b lon lt = et2lst r et' b' lon' lt' ∧
    timout r et p = timout r et' p' ∧
    dskp02 r handle d = dskp02 r handle' d' ∧
    dskv02 r handle d = dskv02 r handle' d' ∧
    kdata r w k = kdata r w' k' := by
  subst hc he hb hl hlt hp hh hd hw hk
  exact ⟨rfl, rfl, rfl, rfl, rfl, rfl⟩

/-- C6 witness: the theorem applied at concrete equal inputs. -/
theorem claim6_witness :
    (0 : Int) = 0 ∧ bodc2n rawEx 0 = bodc2n rawEx 0 :=
  ⟨rfl,
    (claim6_two_run_determinism rawEx 0 0 rfl f0 f0 rfl 0 0 rfl f0 f0 rfl
      "" "" rfl "" "" rfl 0 0 rfl dl0 dl0 rfl 0 0 rfl "" "" rfl).1⟩

/-- C7: the module's public surface is exactly the six functions `bodc2n`,
`et2lst`, `timout`, `dskp02`, `dskv02` and `kdata`, pairwise distinct, each
adapting exactly one named raw function — its namesake — which is the function
whose call concludes every invocation's raw-call sequence. -/
theorem claim7_public_surface_six_adapters :
    neatPublicSurface.length = 6 ∧
    neatPublicSurface.Nodup ∧
    (∀ f : NeatFn, f ∈ neatPublicSurface) ∧
    adaptsTo .bodc2n = .bodc2n ∧ adaptsTo .et2lst = .et2lst ∧
    adaptsTo .timout = .timout ∧ adaptsTo .dskp02 = .dskp02 ∧
    adaptsTo .dskv02 = .dskv02 ∧ adaptsTo .kdata = .kdata ∧
    (∀ code : Int, ((bodc2nCalls code).map callName).getLast? =
      some (adaptsTo .bodc2n)) ∧
    (∀ (et : F64) (b : Int) (lon : F64) (lt : String),
      ((et2lstCalls et b lon lt).map callName).getLast? = some (adaptsTo .et2lst)) ∧
    (∀ (et : F64) (p : String),
      ((timoutCalls et p).map callName).getLast? = some (adaptsTo .timout)) ∧
    (∀ (r : Raw) (h : Int) (d : DLADSC),
      ((dskp02Calls r h d).map callName).getLast? = some (adaptsTo .dskp02)) ∧
    (∀ (r : Raw) (h : Int) (d : DLADSC),
      ((dskv02Calls r h d).map callName).getLast? = some (adaptsTo .dskv02)) ∧
    (∀ (w : Int) (k : String),
      ((kdataCalls w k).map callName).getLast? = some (adaptsTo .kdata)) :=
  ⟨rfl, by decide, fun f => by cases f <;> decide, rfl, rfl, rfl, rfl, rfl, rfl,
    fun _ => rfl, fun _ _ _ _ => rfl, fun _ _ => rfl,
    fun _ _ _ => rfl, fun _ _ _ => rfl, fun _ _ => rfl⟩

/-- C8: the capacity passed for every output string of `bodc2n`, `et2lst` and
`kdata` is the constant `MAX_LEN_OUT` (the adapters take no length argument, so
a caller cannot request more), hence if the raw layer honors its length
arguments, none of the strings these three adapters return exceeds
`MAX_LEN_OUT` bytes. -/
theorem claim8_output_capacity_max_len_out (r : Raw) (hr : honorsLengths r)
    (code : Int) (et : F64) (b : Int) (lon : F64) (lt : String)
    (which : Int) (kind : String) :
    (bodc2n r code).1.utf8ByteSize ≤ MAX_LEN_OUT ∧
    (et2lst r et b lon lt).2.2.2.1.utf8ByteSize ≤ MAX_LEN_OUT ∧
    (et2lst r et b lon lt).2.2.2.2.utf8ByteSize ≤ MAX_LEN_OUT ∧
    (kdata r which kind).1.utf8ByteSize ≤ MAX_LEN_OUT ∧
    (kdata r which kind).2.1.utf8ByteSize ≤ MAX_LEN_OUT ∧
    (kdata r which kind).2.2.1.utf8ByteSize ≤ MAX_LEN_OUT ∧
    bodc2nCalls code = [RawCall.bodc2n code MAX_LEN_OUT_I32] ∧
    et2lstCalls et b lon lt =
      [RawCall.et2lst et b lon lt MAX_LEN_OUT_I32 MAX_LEN_OUT_I32] ∧
    kdataCalls which kind =
      [RawCall.kdata which kind MAX_LEN_OUT_I32 MAX_LEN_OUT_I32 MAX_LEN_OUT_I32] :=
  ⟨hr.1 code MAX_LEN_OUT_I32,
    (hr.2.1 et b lon lt MAX_LEN_OUT_I32 MAX_LEN_OUT_I32).1,
    (hr.2.1 et b lon lt MAX_LEN_OUT_I32 MAX_LEN_OUT_I32).2,
    (hr.2.2 which kind MAX_LEN_OUT_I32 MAX_LEN_OUT_I32 MAX_LEN_OUT_I32).1,
    (hr.2.2 which kind MAX_LEN_OUT_I32 MAX_LEN_OUT_I32 MAX_LEN_OUT_I32).2.1,
    (hr.2.2 which kind MAX_LEN_OUT_I32 MAX_LEN_OUT_I32 MAX_LEN_OUT_I32).2.2,
    rfl, rfl, rfl⟩

/-- C8 witness: the theorem applied at the concrete length-honoring environment
`rawEx`. -/
theorem claim8_witness :
    honorsLengths rawEx ∧ (bodc2n rawEx 0).1.utf8ByteSize ≤ MAX_LEN_OUT :=
  ⟨rawEx_honors,
    (claim8_output_capacity_max_len_out rawEx rawEx_honors 0 f0 0 f0 "" 0 "").1⟩

/-- C9: the output length `timout` supplies equals `pictur.len()` exactly — 0
for the empty picture — so if the raw layer honors its length argument, the
returned string is never longer than the format picture itself. -/
theorem claim9_timout_output_bound (r : Raw) (hr : timoutHonorsLength r)
    (et : F64) (pictur : String) :
    (timout r et pictur).utf8ByteSize ≤ pictur.utf8ByteSize ∧
    timoutCalls et pictur = [RawCall.timout et pictur pictur.utf8ByteSize] ∧
    timoutCalls et "" = [RawCall.timout et "" 0] :=
  ⟨hr et pictur pictur.utf8ByteSize, rfl, rfl⟩

/-- C9 witness: the theorem applied at the concrete length-honoring environment
`rawEx` and the empty picture. -/
theorem claim9_witness :
    timoutHonorsLength rawEx ∧
    (timout rawEx f0 "").utf8ByteSize ≤ ("" : String).utf8ByteSize :=
  ⟨rawEx_timout_honors, (claim9_timout_output_bound rawEx rawEx_timout_honors f0 "").1⟩

/-- C10: in `dskp02` and `dskv02` the i32 count from `raw::dskz02` reaches the
raw fetch-count parameter through an unannotated `as` cast: the room argument
passed is exactly `i32AsUsize` of the count, and that cast rejects nothing — a
negative count such as -1 wraps modulo 2^64 to 18446744073709551615, and the
most negative i32 wraps to 2^64 - 2^31. -/
theorem claim10_as_cast_room_semantics :
    (∀ (r : Raw) (h : Int) (d : DLADSC),
        dskp02Calls r h d =
          [RawCall.dskz02 h d,
            RawCall.dskp02 h d 1 (i32AsUsize (r.dskz02 h d).2)]) ∧
    (∀ (r : Raw) (h : Int) (d : DLADSC),
        dskv02Calls r h d =
          [RawCall.dskz02 h d,
            RawCall.dskv02 h d 1 (i32AsUsize (r.dskz02 h d).1)]) ∧
    i32AsUsize (-1) = 2 ^ 64 - 1 ∧
    i32AsUsize (-2147483648) = 2 ^ 64 - 2147483648 ∧
    i32AsUsize 2147483647 = 2147483647 :=
  ⟨fun _ _ _ => rfl, fun _ _ _ => rfl, by decide, by decide, by decide⟩
